import Mathlib

namespace OpenClaw

/-! Shallow embedding of the Sahr scheduler and finance-sync plugins
(src/extensions/sahr-scheduler/index.ts and the finance-sync module).
Calendar dates are modelled as day indices (Nat), clock times as
hour/minute pairs, instants as minutes since the day-zero midnight.
JavaScript truthiness on optional strings and numbers is modelled
explicitly by the js* helpers below. -/

/-- JavaScript `a || b` for an optional string: undefined and "" are falsy. -/
def jsOrStr (a : Option String) (b : String) : String :=
  match a with
  | none => b
  | some s => if s = "" then b else s

/-- JavaScript `a || b` for an optional natural number: undefined and 0 are falsy. -/
def jsOrNat (a : Option Nat) (b : Nat) : Nat :=
  match a with
  | none => b
  | some v => if v = 0 then b else v

/-- JavaScript `a || b` for an optional integer amount: undefined and 0 are falsy. -/
def jsOrInt (a : Option Int) (b : Int) : Int :=
  match a with
  | none => b
  | some v => if v = 0 then b else v

/-- JavaScript truthiness of an optional string field (undefined and "" are falsy). -/
def strTruthy (a : Option String) : Bool :=
  match a with
  | none => false
  | some s => s != ""

/-! Scheduler data model -/

/-- Booking status enumeration stored by the CRM. -/
inductive BookingStatus
  | scheduled
  | confirmed
  | in_progress
  | completed
  | cancelled
  | no_show
deriving DecidableEq

/-- Booking record as read back by the scheduler queries: `date` is the
appointment day index, `timeH:timeM` the parsed "HH:MM" appointment time.
The code copies these fields into its BookingConflict view; we carry the
status along so the Firestore status filter can be expressed. -/
structure SchedBooking where
  bookingId : String
  customerName : String
  date : Nat
  timeH : Nat
  timeM : Nat
  location : String
  status : BookingStatus
deriving DecidableEq

/-- SERVICE_DURATIONS constant: service type to duration in minutes. -/
def SERVICE_DURATIONS : String → Option Nat
  | "full_detail" => some 180
  | "interior" => some 90
  | "exterior" => some 60
  | "coating" => some 300
  | "wash" => some 45
  | _ => none

/-- BUFFER_MINUTES constant: travel and setup buffer after every booking. -/
def BUFFER_MINUTES : Nat := 30

/-- Scheduler plugin config (defaults: 180-minute default duration, working hours 9 to 21). -/
structure SchedulerConfig where
  defaultServiceDuration : Nat := 180
  whStart : Nat := 9
  whEnd : Nat := 21
deriving DecidableEq

/-- Service-type union accepted by the check_availability parameters. -/
inductive ServiceType
  | full_detail
  | interior
  | exterior
  | coating
  | wash
deriving DecidableEq

/-- String key of a service-type literal. -/
def ServiceType.key : ServiceType → String
  | .full_detail => "full_detail"
  | .interior => "interior"
  | .exterior => "exterior"
  | .coating => "coating"
  | .wash => "wash"

/-- Duration used by check_availability:
`SERVICE_DURATIONS[params.serviceType || "full_detail"] || config.defaultServiceDuration`. -/
def effectiveDuration (svc : Option ServiceType) (cfg : SchedulerConfig) : Nat :=
  jsOrNat (SERVICE_DURATIONS (match svc with | some t => t.key | none => "full_detail"))
    cfg.defaultServiceDuration

/-- parseDateTime: absolute minutes for day `d` at clock time `h:m`. -/
def parseDT (d h m : Nat) : Nat := d * 1440 + h * 60 + m

/-- Hours enumerated by the slot loop: `hour` runs from workingHours.start while
`hour <= workingHours.end - serviceDuration/60`; over exact (rational)
arithmetic that bound is `hour*60 + serviceDuration <= end*60`. -/
def slotHours (cfg : SchedulerConfig) (dur : Nat) : List Nat :=
  (List.range (cfg.whEnd + 1)).filter
    (fun h => decide (cfg.whStart ≤ h ∧ h * 60 + dur ≤ cfg.whEnd * 60))

/-- Statuses matched by `where("status", "in", ["scheduled", "confirmed", "in_progress"])`. -/
def activeStatus (s : BookingStatus) : Bool :=
  match s with
  | .scheduled => true
  | .confirmed => true
  | .in_progress => true
  | _ => false

/-- Firestore orderBy(appointmentDate) then orderBy(appointmentTime):
lexicographic by day then clock time. -/
def bookingLE (a b : SchedBooking) : Prop :=
  a.date < b.date ∨ (a.date = b.date ∧
    (a.timeH < b.timeH ∨ (a.timeH = b.timeH ∧ a.timeM ≤ b.timeM)))

instance : DecidableRel bookingLE := fun a b => by
  unfold bookingLE
  exact inferInstance

/-- Booking query used by check_availability: appointments within the day range
with an active status, ordered by date then time. The database sort is modelled
by `insertionSort`: `bookingLE` is a total preorder, so any stable sort yields
this list. -/
def queryActiveBookings (db : List SchedBooking) (d1 d2 : Nat) : List SchedBooking :=
  (db.filter (fun b => decide (d1 ≤ b.date ∧ b.date ≤ d2) && activeStatus b.status)).insertionSort
    bookingLE

/-- Generated hourly slot; `reason` carries the first conflicting booking (the
code renders it as the string `Booked: name at time`). -/
structure TimeSlot where
  date : Nat
  hour : Nat
  available : Bool
  reason : Option SchedBooking
deriving DecidableEq

/-- Conflict search for one slot: the first same-day booking whose occupied
interval (its start plus the requested duration plus buffer) overlaps the
slot interval, mirroring the for-loop with break. -/
def findConflict (dur slotStart slotEnd : Nat) (dayBookings : List SchedBooking) :
    Option SchedBooking :=
  dayBookings.find? (fun b =>
    let bookingStart := parseDT b.date b.timeH b.timeM
    let bookingEnd := bookingStart + (dur + BUFFER_MINUTES)
    decide (slotStart < bookingEnd ∧ slotEnd > bookingStart))

/-- Hourly slots generated for one day of the availability loop. -/
def slotsForDay (cfg : SchedulerConfig) (dur : Nat) (existing : List SchedBooking) (d : Nat) :
    List TimeSlot :=
  let dayBookings := existing.filter (fun b => b.date == d)
  (slotHours cfg dur).map (fun h =>
    let slotStart := parseDT d h 0
    let slotEnd := slotStart + (dur + BUFFER_MINUTES)
    let conflict := findConflict dur slotStart slotEnd dayBookings
    { date := d, hour := h, available := conflict.isNone, reason := conflict })

/-- Days visited by `while (currentDate <= endDate)`, stepping one day at a time. -/
def daysRange (d1 d2 : Nat) : List Nat := List.range' d1 (d2 + 1 - d1)

/-- Structured result of the availability tool: the generated slots and the
bookings returned by the query. -/
structure AvailabilityResult where
  slots : List TimeSlot
  existingBookings : List SchedBooking
deriving DecidableEq

/-- sahr_scheduler_check_availability: query active bookings over the requested
day range, then for every day and every working hour decide whether the
hypothetical booking of the requested duration plus buffer overlaps an existing
same-day booking (both intervals use the requested service duration, since the
query result does not carry the existing booking's own service type). -/
def sahr_scheduler_check_availability (db : List SchedBooking) (cfg : SchedulerConfig)
    (date : Nat) (endDate : Option Nat) (serviceType : Option ServiceType) :
    AvailabilityResult :=
  let d2 := endDate.getD date
  let dur := effectiveDuration serviceType cfg
  let existing := queryActiveBookings db date d2
  { slots := (daysRange date d2).flatMap (slotsForDay cfg dur existing)
    existingBookings := existing }

/-- Occupied-interval end for a booking starting at absolute minute `s`:
start + duration + BUFFER_MINUTES. -/
def occupiedEnd (s dur : Nat) : Nat := s + (dur + BUFFER_MINUTES)

/-- Standard half-open interval overlap of [s1, e1) and [s2, e2). -/
def intervalsOverlap (s1 e1 s2 e2 : Nat) : Prop := s1 < e2 ∧ e1 > s2

/-- Example database shared by several concrete instantiations: a single
scheduled booking at 18:00 on day 0 (the spec's dedicated test vector). -/
def exBooking : SchedBooking :=
  { bookingId := "b1", customerName := "Alice", date := 0, timeH := 18, timeM := 0,
    location := "TBD", status := .scheduled }

/-! Time-suggestion subsystem (sahr_scheduler_suggest_times) -/

/-- Weekday names produced by getDayName and accepted in preferredDays. -/
inductive Weekday
  | monday
  | tuesday
  | wednesday
  | thursday
  | friday
  | saturday
  | sunday
deriving DecidableEq

/-- Calendar weekday of a day index; day 0 (the 1970-01-01 epoch) is a
Thursday, so day arithmetic matches the JavaScript Date calendar. -/
def weekdayOf (d : Nat) : Weekday :=
  match d % 7 with
  | 0 => .thursday
  | 1 => .friday
  | 2 => .saturday
  | 3 => .sunday
  | 4 => .monday
  | 5 => .tuesday
  | _ => .wednesday

/-- Urgency classes of the suggest_times parameters. -/
inductive Urgency
  | asap
  | this_week
  | next_week
  | flexible
deriving DecidableEq

/-- Day offsets (start, end) from today of the urgency switch: asap 0..3,
this_week 0..7, next_week 7..14, default (flexible or absent) 0..14. -/
def urgencyOffsets : Option Urgency → Nat × Nat
  | some .asap => (0, 3)
  | some .this_week => (0, 7)
  | some .next_week => (7, 14)
  | _ => (0, 14)

/-- Preferred time-of-day bands of the suggest_times parameters. -/
inductive TimeBand
  | morning
  | afternoon
  | evening
deriving DecidableEq

/-- timeRanges table: morning 9-12, afternoon 12-17, evening 17-21; the lookup
key is `params.preferredTimeRange || "afternoon"`. -/
def timeRangeFor : Option TimeBand → Nat × Nat
  | some .morning => (9, 12)
  | some .afternoon => (12, 17)
  | some .evening => (17, 21)
  | none => (12, 17)

/-- Math.ceil(serviceDuration / 60) over naturals. -/
def ceilHours (dur : Nat) : Nat := (dur + 59) / 60

/-- Duration used by suggest_times:
`SERVICE_DURATIONS[params.serviceType || "full_detail"] || config.defaultServiceDuration`,
where serviceType is an arbitrary optional string on this path. -/
def suggestDuration (svc : Option String) (cfg : SchedulerConfig) : Nat :=
  jsOrNat (SERVICE_DURATIONS (jsOrStr svc "full_detail")) cfg.defaultServiceDuration

/-- Conflict test of the suggestion loop: some same-day booking satisfies
bookingHour <= hour < bookingHour + ceil(duration/60), where bookingHour is the
integer before the colon of its "HH:MM" time; no buffer is involved. -/
def hasConflictAt (existing : List SchedBooking) (d dur h : Nat) : Bool :=
  existing.any (fun b =>
    b.date == d && decide (b.timeH ≤ h ∧ h < b.timeH + ceilHours dur))

/-- Scored candidate slot produced by suggest_times. -/
structure Suggestion where
  date : Nat
  hour : Nat
  score : Nat
  reason : String
deriving DecidableEq

/-- Score and reason assembly for one non-conflicting slot: base 100; +20 when
`!params.preferredDays || params.preferredDays.includes(dayName)`, that is when
the preference list is absent or contains the weekday; for asap urgency
+Math.max(0, 30 - daysFromNow*5) (natural subtraction) and a "soon" tag when
daysFromNow <= 2; +10 for the popular hours 17 and 18. -/
def suggestionAt (preferredDays : Option (List Weekday)) (urgency : Option Urgency)
    (today d h : Nat) : Suggestion :=
  let dayMatch := match preferredDays with
    | none => true
    | some l => l.contains (weekdayOf d)
  let daysFromNow := d - today
  let score :=
    100 + (if dayMatch then 20 else 0)
      + (if urgency = some .asap then 30 - daysFromNow * 5 else 0)
      + (if h = 17 ∨ h = 18 then 10 else 0)
  let reasons :=
    (if dayMatch then ["matches preferred day"] else [])
      ++ (if urgency = some .asap ∧ daysFromNow ≤ 2 then ["soon"] else [])
      ++ (if h = 17 ∨ h = 18 then ["popular time"] else [])
  { date := d, hour := h, score := score,
    reason := jsOrStr (some (String.intercalate ", " reasons)) "available" }

/-- Query of the suggestion path: bookings within the urgency date range with
status scheduled or confirmed, no ordering clause. -/
def querySuggestBookings (db : List SchedBooking) (d1 d2 : Nat) : List SchedBooking :=
  db.filter (fun b => decide (d1 ≤ b.date ∧ b.date ≤ d2)
    && (b.status == BookingStatus.scheduled || b.status == BookingStatus.confirmed))

/-- Full pre-ranking enumeration: for each day of the urgency range (ascending)
and each hour of the preferred band (ascending), emit a scored suggestion when
the hour does not conflict with an existing booking. -/
def allSuggestions (preferredDays : Option (List Weekday)) (band : Option TimeBand)
    (urgency : Option Urgency) (existing : List SchedBooking) (dur today : Nat) :
    List Suggestion :=
  let so := (urgencyOffsets urgency).1
  let eo := (urgencyOffsets urgency).2
  let r := timeRangeFor band
  (List.range' (today + so) (eo - so + 1)).flatMap (fun d =>
    ((List.range' r.1 (r.2 - r.1)).filter (fun h => !hasConflictAt existing d dur h)).map
      (fun h => suggestionAt preferredDays urgency today d h))

/-- Comparator of `suggestions.sort((a, b) => b.score - a.score)`: descending
by score. The JS sort is stable, so insertionSort over this total preorder
produces the same list. -/
def suggLE (a b : Suggestion) : Prop := b.score ≤ a.score

instance : DecidableRel suggLE := fun a b => by
  unfold suggLE
  exact inferInstance

instance : IsTotal Suggestion suggLE := ⟨fun a b => Nat.le_total b.score a.score⟩

instance : IsTrans Suggestion suggLE := ⟨fun _ _ _ h1 h2 => Nat.le_trans h2 h1⟩

/-- sahr_scheduler_suggest_times: enumerate candidate slots over the urgency
date range within the preferred band, drop conflicting hours, score the rest,
sort descending by score (stably) and keep the first five. -/
def sahr_scheduler_suggest_times (cfg : SchedulerConfig)
    (preferredDays : Option (List Weekday)) (band : Option TimeBand)
    (serviceType : Option String) (urgency : Option Urgency)
    (db : List SchedBooking) (today : Nat) : List Suggestion :=
  let dur := suggestDuration serviceType cfg
  let so := (urgencyOffsets urgency).1
  let eo := (urgencyOffsets urgency).2
  let existing := querySuggestBookings db (today + so) (today + eo)
  ((allSuggestions preferredDays band urgency existing dur today).insertionSort suggLE).take 5

/-! Rebooking subsystem (sahr_scheduler_suggest_rebooking) -/

/-- Frequency labels of suggest_rebooking. -/
inductive Frequency
  | weekly
  | biweekly
  | monthly
  | every_1_5_months
  | every_2_months
  | quarterly
deriving DecidableEq

/-- REBOOKING_INTERVALS constant: days per frequency label. -/
def REBOOKING_INTERVALS : Frequency → Nat
  | .weekly => 7
  | .biweekly => 14
  | .monthly => 30
  | .every_1_5_months => 45
  | .every_2_months => 60
  | .quarterly => 90

/-- sahr_scheduler_suggest_rebooking date computation: last booking date plus
the frequency interval (frequency defaulting to monthly); when that instant
(midnight of the computed day, in minutes) is before the current instant
`nowMinutes`, snap to today plus 7 days. Returns the suggested day index. -/
def sahr_scheduler_suggest_rebooking (lastBookingDay : Nat) (frequency : Option Frequency)
    (nowMinutes : Nat) : Nat :=
  let interval := REBOOKING_INTERVALS (frequency.getD .monthly)
  let suggested := lastBookingDay + interval
  if suggested * 1440 < nowMinutes then nowMinutes / 1440 + 7 else suggested

/-- Day index (days since 1970-01-01) of a Gregorian calendar date, used to
instantiate concrete dates; valid for years from 1970 on. -/
def epochDay (y m d : Nat) : Nat :=
  let yy := if m ≤ 2 then y - 1 else y
  let era := yy / 400
  let yoe := yy - era * 400
  let mp := (m + 9) % 12
  let doy := (153 * mp + 2) / 5 + (d - 1)
  let doe := yoe * 365 + yoe / 4 - yoe / 100 + doy
  era * 146097 + doe - 719468

/-- Second example booking for suggestion-path instantiations: 12:00 on day 0. -/
def exBooking2 : SchedBooking :=
  { bookingId := "b2", customerName := "Bob", date := 0, timeH := 12, timeM := 0,
    location := "TBD", status := .scheduled }

/-- Score formula exactly as claim C6 states it: +20 only when the slot weekday
matches a caller-supplied preference list (so no +20 when the list is absent),
+max(0, 30 - 5*daysFromNow) for asap urgency, +10 for hours 17 and 18. -/
def claimedScoreC6 (preferredDays : Option (List Weekday)) (urgency : Option Urgency)
    (today d h : Nat) : Nat :=
  100 + (match preferredDays with
         | none => 0
         | some l => if l.contains (weekdayOf d) then 20 else 0)
    + (if urgency = some .asap then 30 - (d - today) * 5 else 0)
    + (if h = 17 ∨ h = 18 then 10 else 0)

/-- Score formula as amended: the +20 day-preference bonus also applies when no
preference list is supplied, matching `!params.preferredDays || ...includes`. -/
def amendedScoreC6 (preferredDays : Option (List Weekday)) (urgency : Option Urgency)
    (today d h : Nat) : Nat :=
  100 + (if (match preferredDays with
             | none => true
             | some l => l.contains (weekdayOf d)) then 20 else 0)
    + (if urgency = some .asap then 30 - (d - today) * 5 else 0)
    + (if h = 17 ∨ h = 18 then 10 else 0)

/-! Finance-sync subsystem (sahr_finance_sync_booking, sahr_finance_bulk_sync) -/

/-- Booking document as the finance module reads it from the sahr_bookings
collection; absent optional fields are `none`, absent booleans read as false. -/
structure FinBooking where
  customerId : String
  customerName : String
  serviceType : String
  appointmentDate : String
  price : Int
  tipAmount : Option Int
  status : String
  paymentMethod : Option String
  financeSynced : Bool
  financeTransactionId : Option String
  financeSyncedAt : Option Nat
deriving DecidableEq

/-- Ledger transaction record written to the transactions collection; the
metadata object is inlined as meta* fields, and ISO timestamps are clock
readings (Nat). -/
structure FinTransaction where
  id : String
  date : String
  description : String
  amount : Int
  currency : String
  accountId : String
  category : String
  categorySource : String
  entity : String
  source : String
  importedAt : Nat
  metaBookingId : Option String
  metaCustomerId : Option String
  metaCustomerName : Option String
  metaServiceType : Option String
  metaTipAmount : Option Int
  metaSyncedAt : Option Nat
deriving DecidableEq

/-- Finance plugin config (defaults from the configSchema). -/
structure FinConfig where
  entityId : String := "sahr-auto"
  defaultAccount : String := "sahr-etransfer"
deriving DecidableEq

/-- Database state touched by the finance module: the bookings collection
(document id to record), the transactions collection in insertion order, a
freshness counter standing in for the Date.now/Math.random source of generated
identifiers, and the current clock reading. -/
structure FinState where
  bookings : List (String × FinBooking)
  transactions : List FinTransaction
  fresh : Nat
  now : Nat
deriving DecidableEq

/-- Firestore-generated document id returned by addDoc, drawn from the
freshness counter; such ids are never the empty string. -/
def docId (n : Nat) : String := "doc-" ++ toString n

/-- generateTransactionId: prefix plus a timestamp/random suffix, drawn from
the freshness counter. -/
def generateTransactionId (pre : String) (n : Nat) : String :=
  pre ++ "_" ++ toString n

/-- PAYMENT_ACCOUNTS constant of the finance module. -/
def PAYMENT_ACCOUNTS : String → Option String
  | "etransfer" => some "sahr-etransfer"
  | "e-transfer" => some "sahr-etransfer"
  | "stripe" => some "sahr-stripe"
  | "cash" => some "sahr-cash"
  | "debit" => some "sahr-debit"
  | "credit" => some "sahr-debit"
  | _ => none

/-- SERVICE_CATEGORIES constant of the finance module. -/
def SERVICE_CATEGORIES : String → Option String
  | "full_detail" => some "auto-detailing"
  | "interior" => some "auto-detailing"
  | "exterior" => some "auto-detailing"
  | "coating" => some "auto-detailing"
  | "wash" => some "auto-detailing"
  | _ => none

/-- getServiceDescription helper: pretty service name (fallback "Detail") plus
the customer name. -/
def getServiceDescription (serviceType customerName : String) : String :=
  (match serviceType with
   | "full_detail" => "Full Detail"
   | "interior" => "Interior Detail"
   | "exterior" => "Exterior Detail"
   | "coating" => "Ceramic Coating"
   | "wash" => "Car Wash"
   | _ => "Detail") ++ " - " ++ customerName

/-- Bracketed note suffix: `if (params.notes) transaction.description += " (notes)"`. -/
def noteSuffix (notes : Option String) : String :=
  match notes with
  | none => ""
  | some n => if n = "" then "" else " (" ++ n ++ ")"

/-- updateDoc performed after posting the service transaction: set
financeSynced, financeTransactionId and financeSyncedAt on the booking. -/
def updateSynced (bs : List (String × FinBooking)) (bookingId txId : String) (t : Nat) :
    List (String × FinBooking) :=
  bs.map (fun p =>
    if p.1 == bookingId then
      (p.1, { p.2 with financeSynced := true, financeTransactionId := some txId,
                       financeSyncedAt := some t })
    else p)

/-- Structured outcome of sahr_finance_sync_booking: the not-found error text,
the recoverable already-synced message (carrying the prior transaction id), or
the posted transaction pair with the new Firestore document id. -/
inductive SyncOutcome
  | errorNotFound (bookingId : String)
  | alreadySynced (txId : String)
  | synced (transaction : FinTransaction) (tipTransaction : Option FinTransaction)
      (firebaseId : String)
deriving DecidableEq

/-- sahr_finance_sync_booking: fetch the booking; when absent return the error
message; when financeSynced and financeTransactionId are both (JS-)truthy
return the recoverable already-synced message and write nothing; otherwise post
the service transaction, mark the booking synced with the new document id, and
post a tip transaction when a positive tip amount is present. -/
def sahr_finance_sync_booking (cfg : FinConfig) (bookingId : String)
    (overrideAmount : Option Int) (paymentMethod : Option String) (notes : Option String)
    (s : FinState) : FinState × SyncOutcome :=
  match s.bookings.lookup bookingId with
  | none => (s, .errorNotFound bookingId)
  | some booking =>
    if booking.financeSynced && strTruthy booking.financeTransactionId then
      (s, .alreadySynced (booking.financeTransactionId.getD ""))
    else
      let pm := jsOrStr paymentMethod (jsOrStr booking.paymentMethod "etransfer")
      let accountId := (PAYMENT_ACCOUNTS pm.toLower).getD cfg.defaultAccount
      let amount := jsOrInt overrideAmount booking.price
      let transaction : FinTransaction :=
        { id := generateTransactionId "sahr" s.fresh
          date := booking.appointmentDate
          description := getServiceDescription booking.serviceType booking.customerName
            ++ noteSuffix notes
          amount := amount
          currency := "CAD"
          accountId := accountId
          category := (SERVICE_CATEGORIES booking.serviceType).getD "auto-detailing"
          categorySource := "crm-sync"
          entity := cfg.entityId
          source := "sahr-crm"
          importedAt := s.now
          metaBookingId := some bookingId
          metaCustomerId := some booking.customerId
          metaCustomerName := some booking.customerName
          metaServiceType := some booking.serviceType
          metaTipAmount := none
          metaSyncedAt := some s.now }
      let txDocId := docId (s.fresh + 1)
      let s1 : FinState :=
        { s with transactions := s.transactions ++ [transaction], fresh := s.fresh + 2 }
      let s2 : FinState :=
        { s1 with bookings := updateSynced s1.bookings bookingId txDocId s.now }
      match booking.tipAmount with
      | some tip =>
        if 0 < tip then
          let tipTransaction : FinTransaction :=
            { id := generateTransactionId "sahr_tip" s2.fresh
              date := booking.appointmentDate
              description := "Tip - " ++ booking.customerName
              amount := tip
              currency := "CAD"
              accountId := accountId
              category := "tips"
              categorySource := "crm-sync"
              entity := cfg.entityId
              source := "sahr-crm"
              importedAt := s.now
              metaBookingId := some bookingId
              metaCustomerId := some booking.customerId
              metaCustomerName := some booking.customerName
              metaServiceType := none
              metaTipAmount := some tip
              metaSyncedAt := some s.now }
          let s3 : FinState :=
            { s2 with transactions := s2.transactions ++ [tipTransaction],
                      fresh := s2.fresh + 1 }
          (s3, .synced transaction (some tipTransaction) txDocId)
        else (s2, .synced transaction none txDocId)
      | none => (s2, .synced transaction none txDocId)

/-- Per-item entry of the bulk-sync results list. -/
structure BulkItem where
  bookingId : String
  success : Bool
  transactionId : Option String
  error : Option String
deriving DecidableEq

/-- One iteration of the sahr_finance_bulk_sync loop: skip a missing booking
with a "Not found" entry, skip on financeSynced alone with an "Already synced"
entry, otherwise post the service (and optional tip) transaction and flag the
booking; the third component is the amount added to the running total. -/
def bulkSyncStep (cfg : FinConfig) (defaultPaymentMethod : Option String)
    (s : FinState) (bookingId : String) : FinState × BulkItem × Int :=
  match s.bookings.lookup bookingId with
  | none => (s, { bookingId := bookingId, success := false, transactionId := none,
                  error := some "Not found" }, 0)
  | some booking =>
    if booking.financeSynced then
      (s, { bookingId := bookingId, success := false, transactionId := none,
            error := some "Already synced" }, 0)
    else
      let pm := jsOrStr booking.paymentMethod (jsOrStr defaultPaymentMethod "etransfer")
      let accountId := (PAYMENT_ACCOUNTS pm.toLower).getD cfg.defaultAccount
      let transaction : FinTransaction :=
        { id := generateTransactionId "sahr" s.fresh
          date := booking.appointmentDate
          description := getServiceDescription booking.serviceType booking.customerName
          amount := booking.price
          currency := "CAD"
          accountId := accountId
          category := (SERVICE_CATEGORIES booking.serviceType).getD "auto-detailing"
          categorySource := "crm-sync"
          entity := cfg.entityId
          source := "sahr-crm"
          importedAt := s.now
          metaBookingId := some bookingId
          metaCustomerId := some booking.customerId
          metaCustomerName := some booking.customerName
          metaServiceType := some booking.serviceType
          metaTipAmount := none
          metaSyncedAt := some s.now }
      let txDocId := docId (s.fresh + 1)
      let s1 : FinState :=
        { s with transactions := s.transactions ++ [transaction], fresh := s.fresh + 2 }
      let s2 : FinState :=
        { s1 with bookings := updateSynced s1.bookings bookingId txDocId s.now }
      match booking.tipAmount with
      | some tip =>
        if 0 < tip then
          let tipTx : FinTransaction :=
            { id := generateTransactionId "sahr_tip" s2.fresh
              date := booking.appointmentDate
              description := "Tip - " ++ booking.customerName
              amount := tip
              currency := "CAD"
              accountId := accountId
              category := "tips"
              categorySource := "crm-sync"
              entity := cfg.entityId
              source := "sahr-crm"
              importedAt := s.now
              metaBookingId := some bookingId
              metaCustomerId := none
              metaCustomerName := some booking.customerName
              metaServiceType := none
              metaTipAmount := some tip
              metaSyncedAt := some s.now }
          let s3 : FinState :=
            { s2 with transactions := s2.transactions ++ [tipTx], fresh := s2.fresh + 1 }
          (s3, { bookingId := bookingId, success := true, transactionId := some txDocId,
                 error := none }, tip + booking.price)
        else
          (s2, { bookingId := bookingId, success := true, transactionId := some txDocId,
                 error := none }, booking.price)
      | none =>
        (s2, { bookingId := bookingId, success := true, transactionId := some txDocId,
               error := none }, booking.price)

/-- sahr_finance_bulk_sync: iterate the booking ids in order, isolating
per-item failures; returns the final state, the per-item results, the count of
successful syncs and the amount total. -/
def sahr_finance_bulk_sync (cfg : FinConfig) (bookingIds : List String)
    (defaultPaymentMethod : Option String) (s : FinState) :
    FinState × List BulkItem × Nat × Int :=
  match bookingIds with
  | [] => (s, [], 0, 0)
  | i :: rest =>
    let q := bulkSyncStep cfg defaultPaymentMethod s i
    let r := sahr_finance_bulk_sync cfg rest defaultPaymentMethod q.1
    (r.1, q.2.1 :: r.2.1, (if q.2.1.success then 1 else 0) + r.2.2.1, q.2.2 + r.2.2.2)

/-- Example finance booking: completed, not yet synced, with a tip. -/
def exFinBooking : FinBooking :=
  { customerId := "c1", customerName := "Alice", serviceType := "full_detail",
    appointmentDate := "2026-01-01", price := 250, tipAmount := some 20,
    status := "completed", paymentMethod := some "cash", financeSynced := false,
    financeTransactionId := none, financeSyncedAt := none }

/-- Example finance state holding only `exFinBooking` under id "bk1". -/
def exFinState : FinState :=
  { bookings := [("bk1", exFinBooking)], transactions := [], fresh := 0, now := 0 }

/-- Example booking for the C10 divergence: financeSynced is set but no
financeTransactionId was recorded. -/
def exFinBooking10 : FinBooking :=
  { customerId := "c2", customerName := "Bob", serviceType := "wash",
    appointmentDate := "2026-02-01", price := 45, tipAmount := none,
    status := "completed", paymentMethod := none, financeSynced := true,
    financeTransactionId := none, financeSyncedAt := none }

/-- Example finance state holding only `exFinBooking10` under id "bk2". -/
def exFinState10 : FinState :=
  { bookings := [("bk2", exFinBooking10)], transactions := [], fresh := 0, now := 0 }

/-! Helper lemmas about the availability computation -/

theorem mem_daysRange {d d1 d2 : Nat} : d ∈ daysRange d1 d2 ↔ d1 ≤ d ∧ d ≤ d2 := by
  simp only [daysRange, List.mem_range']
  constructor
  · rintro ⟨i, hi, rfl⟩
    omega
  · rintro ⟨h1, h2⟩
    exact ⟨d - d1, by omega, by omega⟩

theorem mem_slotHours {cfg : SchedulerConfig} {dur h : Nat} :
    h ∈ slotHours cfg dur ↔ cfg.whStart ≤ h ∧ h * 60 + dur ≤ cfg.whEnd * 60 := by
  simp only [slotHours, List.mem_filter, List.mem_range, decide_eq_true_eq]
  omega

theorem mem_queryActiveBookings {db : List SchedBooking} {d1 d2 : Nat} {b : SchedBooking} :
    b ∈ queryActiveBookings db d1 d2 ↔
      b ∈ db ∧ (d1 ≤ b.date ∧ b.date ≤ d2) ∧ activeStatus b.status = true := by
  simp [queryActiveBookings, List.mem_insertionSort, List.mem_filter, and_assoc]

theorem mem_check_slots {db : List SchedBooking} {cfg : SchedulerConfig} {date : Nat}
    {endDate : Option Nat} {svc : Option ServiceType} {s : TimeSlot} :
    s ∈ (sahr_scheduler_check_availability db cfg date endDate svc).slots ↔
      ∃ d, d ∈ daysRange date (endDate.getD date) ∧
        s ∈ slotsForDay cfg (effectiveDuration svc cfg)
          (queryActiveBookings db date (endDate.getD date)) d := by
  simp [sahr_scheduler_check_availability, List.mem_flatMap]

theorem mem_slotsForDay {cfg : SchedulerConfig} {dur d : Nat} {existing : List SchedBooking}
    {s : TimeSlot} :
    s ∈ slotsForDay cfg dur existing d ↔
      ∃ h, h ∈ slotHours cfg dur ∧
        s = { date := d, hour := h,
              available := (findConflict dur (parseDT d h 0) (parseDT d h 0 + (dur + BUFFER_MINUTES))
                  (existing.filter (fun b => b.date == d))).isNone,
              reason := findConflict dur (parseDT d h 0) (parseDT d h 0 + (dur + BUFFER_MINUTES))
                  (existing.filter (fun b => b.date == d)) } := by
  simp only [slotsForDay, List.mem_map]
  constructor
  · rintro ⟨h, hh, rfl⟩
    exact ⟨h, hh, rfl⟩
  · rintro ⟨h, hh, rfl⟩
    exact ⟨h, hh, rfl⟩

/-- C1: every slot marked available by sahr_scheduler_check_availability has an
occupied interval [slot start, slot start + requested duration + 30-minute
buffer) that does not overlap the occupied interval (same duration plus buffer,
as computed by the code) of any existing booking with status scheduled,
confirmed or in_progress on that date. -/
theorem claim_C1_available_slot_no_overlap
    (db : List SchedBooking) (cfg : SchedulerConfig) (date : Nat) (endDate : Option Nat)
    (serviceType : Option ServiceType) (s : TimeSlot) (b : SchedBooking)
    (hs : s ∈ (sahr_scheduler_check_availability db cfg date endDate serviceType).slots)
    (hav : s.available = true)
    (hb : b ∈ db) (hact : activeStatus b.status = true) (hdate : b.date = s.date) :
    ¬ intervalsOverlap (parseDT s.date s.hour 0)
        (occupiedEnd (parseDT s.date s.hour 0) (effectiveDuration serviceType cfg))
        (parseDT b.date b.timeH b.timeM)
        (occupiedEnd (parseDT b.date b.timeH b.timeM) (effectiveDuration serviceType cfg)) := by
  rcases mem_check_slots.mp hs with ⟨d, hd, hsd⟩
  rcases mem_slotsForDay.mp hsd with ⟨h, hh, rfl⟩
  have hav2 : (findConflict (effectiveDuration serviceType cfg) (parseDT d h 0)
      (parseDT d h 0 + (effectiveDuration serviceType cfg + BUFFER_MINUTES))
      ((queryActiveBookings db date (endDate.getD date)).filter (fun x => x.date == d))) =
        none := Option.isNone_iff_eq_none.mp hav
  have hbd : b.date = d := hdate
  have hmem : b ∈ (queryActiveBookings db date (endDate.getD date)).filter
      (fun x => x.date == d) := by
    rw [List.mem_filter]
    have hdr := mem_daysRange.mp hd
    exact ⟨mem_queryActiveBookings.mpr ⟨hb, by omega, hact⟩, by simp [hbd]⟩
  simp only [findConflict] at hav2
  rw [List.find?_eq_none] at hav2
  have hpred := hav2 b hmem
  simp only [decide_eq_true_eq] at hpred
  show ¬ intervalsOverlap (parseDT d h 0)
      (occupiedEnd (parseDT d h 0) (effectiveDuration serviceType cfg))
      (parseDT b.date b.timeH b.timeM)
      (occupiedEnd (parseDT b.date b.timeH b.timeM) (effectiveDuration serviceType cfg))
  simp only [intervalsOverlap, occupiedEnd]
  exact hpred

/-- C1 witness: concrete instantiation on the single-booking example database,
at the available 9:00 slot. -/
theorem claim_C1_witness :
    ¬ intervalsOverlap (parseDT 0 9 0)
        (occupiedEnd (parseDT 0 9 0) (effectiveDuration (some .full_detail) {}))
        (parseDT 0 18 0)
        (occupiedEnd (parseDT 0 18 0) (effectiveDuration (some .full_detail) {})) :=
  claim_C1_available_slot_no_overlap [exBooking] {} 0 none (some .full_detail)
    { date := 0, hour := 9, available := true, reason := none } exBooking
    (by decide) rfl (by decide) rfl rfl

/-- C8: a generated slot is reported unavailable exactly when some active
same-day booking in the database satisfies the standard half-open overlap test
(s1 < e2 and e1 > s2) on the occupied intervals. -/
theorem claim_C8_unavailable_iff_overlap
    (db : List SchedBooking) (cfg : SchedulerConfig) (date : Nat) (endDate : Option Nat)
    (serviceType : Option ServiceType) (s : TimeSlot)
    (hs : s ∈ (sahr_scheduler_check_availability db cfg date endDate serviceType).slots) :
    s.available = false ↔
      ∃ b, b ∈ db ∧ activeStatus b.status = true ∧ b.date = s.date ∧
        intervalsOverlap (parseDT s.date s.hour 0)
          (occupiedEnd (parseDT s.date s.hour 0) (effectiveDuration serviceType cfg))
          (parseDT b.date b.timeH b.timeM)
          (occupiedEnd (parseDT b.date b.timeH b.timeM) (effectiveDuration serviceType cfg)) := by
  rcases mem_check_slots.mp hs with ⟨d, hd, hsd⟩
  rcases mem_slotsForDay.mp hsd with ⟨h, hh, rfl⟩
  have hdr := mem_daysRange.mp hd
  show (findConflict (effectiveDuration serviceType cfg) (parseDT d h 0)
      (parseDT d h 0 + (effectiveDuration serviceType cfg + BUFFER_MINUTES))
      ((queryActiveBookings db date (endDate.getD date)).filter (fun x => x.date == d))).isNone
        = false ↔
    ∃ b, b ∈ db ∧ activeStatus b.status = true ∧ b.date = d ∧
      intervalsOverlap (parseDT d h 0)
        (occupiedEnd (parseDT d h 0) (effectiveDuration serviceType cfg))
        (parseDT b.date b.timeH b.timeM)
        (occupiedEnd (parseDT b.date b.timeH b.timeM) (effectiveDuration serviceType cfg))
  constructor
  · intro hne
    rcases hfc : findConflict (effectiveDuration serviceType cfg) (parseDT d h 0)
        (parseDT d h 0 + (effectiveDuration serviceType cfg + BUFFER_MINUTES))
        ((queryActiveBookings db date (endDate.getD date)).filter (fun x => x.date == d)) with
      _ | c
    · rw [hfc] at hne
      simp at hne
    · simp only [findConflict] at hfc
      have hcm := List.mem_of_find?_eq_some hfc
      have hcp := List.find?_some hfc
      rw [List.mem_filter] at hcm
      rcases mem_queryActiveBookings.mp hcm.1 with ⟨hcdb, _, hcact⟩
      have hcd : c.date = d := by simpa using hcm.2
      refine ⟨c, hcdb, hcact, hcd, ?_⟩
      simp only [decide_eq_true_eq] at hcp
      simp only [intervalsOverlap, occupiedEnd]
      exact hcp
  · rintro ⟨b, hb, hact, hbd, hov⟩
    have hmem : b ∈ (queryActiveBookings db date (endDate.getD date)).filter
        (fun x => x.date == d) := by
      rw [List.mem_filter]
      exact ⟨mem_queryActiveBookings.mpr ⟨hb, by omega, hact⟩, by simp [hbd]⟩
    rcases hfc : findConflict (effectiveDuration serviceType cfg) (parseDT d h 0)
        (parseDT d h 0 + (effectiveDuration serviceType cfg + BUFFER_MINUTES))
        ((queryActiveBookings db date (endDate.getD date)).filter (fun x => x.date == d)) with
      _ | c
    · exfalso
      simp only [findConflict] at hfc
      rw [List.find?_eq_none] at hfc
      have hb2 := hfc b hmem
      simp only [decide_eq_true_eq] at hb2
      simp only [intervalsOverlap, occupiedEnd] at hov
      exact hb2 hov
    · rfl

/-- C8 witness: concrete instantiation at the conflicting 17:00 slot of the
single-booking example. -/
theorem claim_C8_witness :
    ((false = false) ↔
      ∃ b, b ∈ [exBooking] ∧ activeStatus b.status = true ∧ b.date = 0 ∧
        intervalsOverlap (parseDT 0 17 0)
          (occupiedEnd (parseDT 0 17 0) (effectiveDuration (some .full_detail) {}))
          (parseDT b.date b.timeH b.timeM)
          (occupiedEnd (parseDT b.date b.timeH b.timeM)
            (effectiveDuration (some .full_detail) {}))) :=
  claim_C8_unavailable_iff_overlap [exBooking] {} 0 none (some .full_detail)
    { date := 0, hour := 17, available := false, reason := some exBooking } (by decide)

/-- C9: a slot for day d and hour h appears in the availability output exactly
when d lies in the requested day range, h is at least workingHours.start and
h*60 + duration ≤ workingHours.end*60 (the loop bound `hour <= end -
duration/60`); later working hours produce no slot at all, available or not. -/
theorem claim_C9_slot_generation_range
    (db : List SchedBooking) (cfg : SchedulerConfig) (date : Nat) (endDate : Option Nat)
    (serviceType : Option ServiceType) (d h : Nat) :
    (∃ s, s ∈ (sahr_scheduler_check_availability db cfg date endDate serviceType).slots ∧
        s.date = d ∧ s.hour = h) ↔
      (date ≤ d ∧ d ≤ endDate.getD date ∧
        cfg.whStart ≤ h ∧ h * 60 + effectiveDuration serviceType cfg ≤ cfg.whEnd * 60) := by
  constructor
  · rintro ⟨s, hs, hd, hh⟩
    rcases mem_check_slots.mp hs with ⟨d', hd', hsd⟩
    rcases mem_slotsForDay.mp hsd with ⟨h', hh', rfl⟩
    have e1 : d' = d := hd
    have e2 : h' = h := hh
    subst e1
    subst e2
    rcases mem_daysRange.mp hd' with ⟨q1, q2⟩
    rcases mem_slotHours.mp hh' with ⟨q3, q4⟩
    exact ⟨q1, q2, q3, q4⟩
  · rintro ⟨h1, h2, h3, h4⟩
    exact ⟨_, mem_check_slots.mpr ⟨d, mem_daysRange.mpr ⟨h1, h2⟩,
      mem_slotsForDay.mpr ⟨h, mem_slotHours.mpr ⟨h3, h4⟩, rfl⟩⟩, rfl, rfl⟩

/-- C3 counterexample: with working hours 9 to 21, a 180-minute service and a
single 18:00 booking, the code reports the 17:00 slot (which exists) as
unavailable, because a 180-minute job starting at 17:00 occupies 17:00 to 20:30
and overlaps the booking occupying 18:00 to 21:30, and it generates no 19:00
slot at all; the claim instead says 9:00 through 17:00 are available and 19:00
is reported unavailable. -/
theorem claim_C3_counterexample :
    (((sahr_scheduler_check_availability [exBooking] {} 0 none (some .full_detail)).slots.any
        (fun s => s.hour == 17)) = true) ∧
    (((sahr_scheduler_check_availability [exBooking] {} 0 none (some .full_detail)).slots.any
        (fun s => s.hour == 17 && s.available)) = false) ∧
    (((sahr_scheduler_check_availability [exBooking] {} 0 none (some .full_detail)).slots.any
        (fun s => s.hour == 19)) = false) := by
  decide

/-- C3 amended: with working hours 9 to 21, a 180-minute service and one
booking at 18:00 (occupied until 21:30), slots are generated only for hours
9:00 through 18:00; hours 9:00 through 14:00 report available and hours 15:00
through 18:00 report unavailable (a 180-minute job starting at 15:00 or later
would overlap the 18:00 booking); hours 19:00 and 20:00 get no slot at all. -/
theorem claim_C3_amended :
    ((sahr_scheduler_check_availability [exBooking] {} 0 none (some .full_detail)).slots.map
        (fun s => (s.hour, s.available))) =
      [(9, true), (10, true), (11, true), (12, true), (13, true), (14, true),
       (15, false), (16, false), (17, false), (18, false)] := by
  decide

/-! Helper lemmas about the suggestion computation -/

theorem mem_range'_bounds {a n m : Nat} : m ∈ List.range' a n ↔ a ≤ m ∧ m < a + n := by
  rw [List.mem_range']
  constructor
  · rintro ⟨i, hi, rfl⟩
    omega
  · rintro ⟨h1, h2⟩
    exact ⟨m - a, by omega, by omega⟩

theorem urgencyOffsets_le (u : Option Urgency) :
    (urgencyOffsets u).1 ≤ (urgencyOffsets u).2 := by
  rcases u with _ | u
  · decide
  · cases u <;> decide

theorem timeRangeFor_le (b : Option TimeBand) :
    (timeRangeFor b).1 ≤ (timeRangeFor b).2 := by
  rcases b with _ | b
  · decide
  · cases b <;> decide

theorem hasConflictAt_iff {existing : List SchedBooking} {d dur h : Nat} :
    hasConflictAt existing d dur h = true ↔
      ∃ b, b ∈ existing ∧ b.date = d ∧ b.timeH ≤ h ∧ h < b.timeH + ceilHours dur := by
  simp [hasConflictAt, List.any_eq_true, and_assoc]

theorem mem_allSuggestions {preferredDays : Option (List Weekday)} {band : Option TimeBand}
    {urgency : Option Urgency} {existing : List SchedBooking} {dur today : Nat}
    {s : Suggestion} :
    s ∈ allSuggestions preferredDays band urgency existing dur today ↔
      ∃ d, (today + (urgencyOffsets urgency).1 ≤ d ∧ d ≤ today + (urgencyOffsets urgency).2) ∧
        ∃ h, ((timeRangeFor band).1 ≤ h ∧ h < (timeRangeFor band).2) ∧
          hasConflictAt existing d dur h = false ∧
          s = suggestionAt preferredDays urgency today d h := by
  have hu := urgencyOffsets_le urgency
  have ht := timeRangeFor_le band
  simp only [allSuggestions, List.mem_flatMap, List.mem_map, List.mem_filter,
    mem_range'_bounds, Bool.not_eq_true']
  constructor
  · rintro ⟨d, hd, h, ⟨⟨hh1, hh2⟩, hc⟩, rfl⟩
    exact ⟨d, by omega, h, by omega, hc, rfl⟩
  · rintro ⟨d, hd, h, hh, hc, rfl⟩
    exact ⟨d, by omega, h, ⟨⟨by omega, by omega⟩, hc⟩, rfl⟩

/-- C4: inside the enumerated date range and preferred band, an hour h on day d
is left out of the suggest_times enumeration exactly when some same-day
existing booking satisfies bookingHour <= h < bookingHour + ceil(duration/60);
the 30-minute buffer plays no role on this path. The enumeration
`allSuggestions` is literally the candidate generation inside
sahr_scheduler_suggest_times, quantified here over an arbitrary queried booking
list and duration. -/
theorem claim_C4_suggest_conflict_rule
    (preferredDays : Option (List Weekday)) (band : Option TimeBand)
    (urgency : Option Urgency) (existing : List SchedBooking) (dur today d h : Nat)
    (hd1 : today + (urgencyOffsets urgency).1 ≤ d)
    (hd2 : d ≤ today + (urgencyOffsets urgency).2)
    (hh1 : (timeRangeFor band).1 ≤ h) (hh2 : h < (timeRangeFor band).2) :
    (¬ ∃ s, s ∈ allSuggestions preferredDays band urgency existing dur today ∧
        s.date = d ∧ s.hour = h) ↔
      ∃ b, b ∈ existing ∧ b.date = d ∧ b.timeH ≤ h ∧ h < b.timeH + ceilHours dur := by
  rw [← hasConflictAt_iff]
  constructor
  · intro hne
    cases hcv : hasConflictAt existing d dur h
    · exact absurd ⟨suggestionAt preferredDays urgency today d h,
        mem_allSuggestions.mpr ⟨d, ⟨hd1, hd2⟩, h, ⟨hh1, hh2⟩, hcv, rfl⟩, rfl, rfl⟩ hne
    · rfl
  · intro hc
    rintro ⟨s, hs, hsd, hsh⟩
    rcases mem_allSuggestions.mp hs with ⟨d', _, h', _, hcf, rfl⟩
    have e1 : d' = d := hsd
    have e2 : h' = h := hsh
    subst e1
    subst e2
    simp [hc] at hcf

/-- C4 witness: a booking at 12:00 and a 180-minute service block hour 13 of
day 0 in the default (afternoon, flexible) enumeration. -/
theorem claim_C4_witness :
    (¬ ∃ s, s ∈ allSuggestions none none none [exBooking2] 180 0 ∧
        s.date = 0 ∧ s.hour = 13) ↔
      ∃ b, b ∈ [exBooking2] ∧ b.date = 0 ∧ b.timeH ≤ 13 ∧ 13 < b.timeH + ceilHours 180 :=
  claim_C4_suggest_conflict_rule none none none [exBooking2] 180 0 0 13
    (by decide) (by decide) (by decide) (by decide)

/-- C5: the rebooking suggestion is the last booking date plus the frequency
interval (weekly 7 days through quarterly 90, defaulting to monthly 30); when
that date is already past the current instant it becomes today plus 7 days; in
particular, last-service 2026-01-01 with monthly frequency yields 2026-01-31
whenever that date has not yet passed. -/
theorem claim_C5_rebooking_date
    (lastBookingDay : Nat) (frequency : Option Frequency) (nowMinutes : Nat) :
    (nowMinutes ≤ (lastBookingDay + REBOOKING_INTERVALS (frequency.getD .monthly)) * 1440 →
      sahr_scheduler_suggest_rebooking lastBookingDay frequency nowMinutes =
        lastBookingDay + REBOOKING_INTERVALS (frequency.getD .monthly)) ∧
    ((lastBookingDay + REBOOKING_INTERVALS (frequency.getD .monthly)) * 1440 < nowMinutes →
      sahr_scheduler_suggest_rebooking lastBookingDay frequency nowMinutes =
        nowMinutes / 1440 + 7) ∧
    (frequency = some .monthly → lastBookingDay = epochDay 2026 1 1 →
      nowMinutes ≤ epochDay 2026 1 31 * 1440 →
      sahr_scheduler_suggest_rebooking lastBookingDay frequency nowMinutes =
        epochDay 2026 1 31) := by
  refine ⟨fun hle => ?_, fun hlt => ?_, fun hf hl hn => ?_⟩
  · simp only [sahr_scheduler_suggest_rebooking]
    rw [if_neg (by omega)]
  · simp only [sahr_scheduler_suggest_rebooking]
    rw [if_pos (by omega)]
  · subst hf
    subst hl
    have h31 : epochDay 2026 1 1 + 30 = epochDay 2026 1 31 := by decide
    simp only [sahr_scheduler_suggest_rebooking, Option.getD_some]
    rw [show REBOOKING_INTERVALS Frequency.monthly = 30 from rfl]
    rw [if_neg (by omega), h31]

/-- C5 witness: at clock instant 0 the monthly rebooking of 2026-01-01 lands on
2026-01-31. -/
theorem claim_C5_witness :
    sahr_scheduler_suggest_rebooking (epochDay 2026 1 1) (some .monthly) 0 =
      epochDay 2026 1 31 :=
  (claim_C5_rebooking_date (epochDay 2026 1 1) (some .monthly) 0).2.2 rfl rfl (by decide)

/-- C6 counterexample: with no caller-supplied preference list (morning band,
no urgency, empty calendar) the first returned suggestion scores 120 because
the code grants the +20 day bonus whenever the preference list is absent,
whereas the claimed formula (bonus only on a match against a supplied list)
gives 100. -/
theorem claim_C6_counterexample :
    (sahr_scheduler_suggest_times {} none (some .morning) none none [] 0).head? =
        some { date := 0, hour := 9, score := 120, reason := "matches preferred day" } ∧
      claimedScoreC6 none none 0 0 9 = 100 := by
  decide

/-- C6 amended: every returned suggestion scores base 100, plus 20 when the
preference list is absent or contains the slot weekday, plus
max(0, 30 - 5*daysFromNow) when urgency is asap, plus 10 when the hour is 17 or
18, and nothing else. -/
theorem claim_C6_amended_score (cfg : SchedulerConfig)
    (preferredDays : Option (List Weekday)) (band : Option TimeBand)
    (serviceType : Option String) (urgency : Option Urgency)
    (db : List SchedBooking) (today : Nat) (s : Suggestion)
    (hs : s ∈ sahr_scheduler_suggest_times cfg preferredDays band serviceType urgency db today) :
    s.score = amendedScoreC6 preferredDays urgency today s.date s.hour := by
  simp only [sahr_scheduler_suggest_times] at hs
  have hs2 := (List.mem_insertionSort suggLE).mp (List.mem_of_mem_take hs)
  rcases mem_allSuggestions.mp hs2 with ⟨d, _, h, _, _, rfl⟩
  rfl

/-- C6 witness: the 9:00 suggestion of the counterexample run satisfies the
amended formula. -/
theorem claim_C6_witness :
    (Suggestion.mk 0 9 120 "matches preferred day").score =
      amendedScoreC6 none none 0 0 9 :=
  claim_C6_amended_score {} none (some .morning) none none [] 0
    (Suggestion.mk 0 9 120 "matches preferred day") (by decide)

theorem filter_score_pairwise (l : List Suggestion) (sc : Nat) :
    (l.filter (fun x => x.score == sc)).Pairwise suggLE := by
  apply List.pairwise_of_forall_mem_list
  intro a ha b hb
  rw [List.mem_filter] at ha hb
  have e1 : a.score = sc := by simpa using ha.2
  have e2 : b.score = sc := by simpa using hb.2
  unfold suggLE
  omega

theorem filter_score_sort_eq (l : List Suggestion) (sc : Nat) :
    (l.insertionSort suggLE).filter (fun x => x.score == sc) =
      l.filter (fun x => x.score == sc) := by
  have h3 : List.Sublist (l.filter (fun x => x.score == sc)) (l.insertionSort suggLE) :=
    List.sublist_insertionSort (filter_score_pairwise l sc) (List.filter_sublist l)
  have h5 := h3.filter (fun x => x.score == sc)
  rw [List.filter_eq_self.mpr (fun a ha => (List.mem_filter.mp ha).2)] at h5
  have h6 : List.Perm ((l.insertionSort suggLE).filter (fun x => x.score == sc))
      (l.filter (fun x => x.score == sc)) := (List.perm_insertionSort suggLE l).filter _
  exact (h5.eq_of_length h6.length_eq.symm).symm

theorem allSuggestions_enum_order (preferredDays : Option (List Weekday))
    (band : Option TimeBand) (urgency : Option Urgency) (existing : List SchedBooking)
    (dur today : Nat) :
    List.Pairwise (fun a b => a.date < b.date ∨ (a.date = b.date ∧ a.hour < b.hour))
      (allSuggestions preferredDays band urgency existing dur today) := by
  simp only [allSuggestions]
  rw [List.pairwise_flatMap]
  constructor
  · intro d _
    rw [List.pairwise_map]
    have hp : List.Pairwise (· < ·)
        ((List.range' (timeRangeFor band).1 ((timeRangeFor band).2 - (timeRangeFor band).1)).filter
          (fun x => !hasConflictAt existing d dur x)) :=
      (List.pairwise_lt_range' _ _).sublist (List.filter_sublist _)
    exact hp.imp (fun hab => Or.inr ⟨rfl, hab⟩)
  · refine (List.pairwise_lt_range' _ _).imp ?_
    intro d1 d2 hlt x hx y hy
    rcases List.mem_map.mp hx with ⟨h1, _, rfl⟩
    rcases List.mem_map.mp hy with ⟨h2, _, rfl⟩
    exact Or.inl hlt

/-- C7: sahr_scheduler_suggest_times returns at most five suggestions, sorted
in descending score order; for every score value the returned suggestions with
that score are a sublist of (keep the relative order of) the pre-sort
enumeration, and that enumeration is ordered by date ascending then hour
ascending, so ties keep the original enumeration order. -/
theorem claim_C7_top5_sorted_stable (cfg : SchedulerConfig)
    (preferredDays : Option (List Weekday)) (band : Option TimeBand)
    (serviceType : Option String) (urgency : Option Urgency)
    (db : List SchedBooking) (today : Nat) :
    (sahr_scheduler_suggest_times cfg preferredDays band serviceType urgency db today).length ≤ 5 ∧
    List.Pairwise (fun a b => b.score ≤ a.score)
      (sahr_scheduler_suggest_times cfg preferredDays band serviceType urgency db today) ∧
    (∀ sc : Nat,
      List.Sublist
        ((sahr_scheduler_suggest_times cfg preferredDays band serviceType urgency db today).filter
          (fun x => x.score == sc))
        ((allSuggestions preferredDays band urgency
            (querySuggestBookings db (today + (urgencyOffsets urgency).1)
              (today + (urgencyOffsets urgency).2))
            (suggestDuration serviceType cfg) today).filter (fun x => x.score == sc))) ∧
    List.Pairwise (fun a b => a.date < b.date ∨ (a.date = b.date ∧ a.hour < b.hour))
      (allSuggestions preferredDays band urgency
        (querySuggestBookings db (today + (urgencyOffsets urgency).1)
          (today + (urgencyOffsets urgency).2))
        (suggestDuration serviceType cfg) today) := by
  refine ⟨?_, ?_, ?_, allSuggestions_enum_order _ _ _ _ _ _⟩
  · simp only [sahr_scheduler_suggest_times, List.length_take]
    omega
  · simp only [sahr_scheduler_suggest_times]
    exact ((List.sorted_insertionSort suggLE _).sublist (List.take_sublist _ _)).imp
      (fun hab => hab)
  · intro sc
    simp only [sahr_scheduler_suggest_times]
    have h1 := (List.take_sublist 5
        ((allSuggestions preferredDays band urgency
            (querySuggestBookings db (today + (urgencyOffsets urgency).1)
              (today + (urgencyOffsets urgency).2))
            (suggestDuration serviceType cfg) today).insertionSort suggLE)).filter
      (fun x => x.score == sc)
    rw [filter_score_sort_eq] at h1
    exact h1

/-! Helper lemmas about the finance computation -/

theorem lookup_updateSynced (bs : List (String × FinBooking)) (i txId : String) (t : Nat) :
    (updateSynced bs i txId t).lookup i =
      (bs.lookup i).map (fun b =>
        { b with financeSynced := true, financeTransactionId := some txId,
                 financeSyncedAt := some t }) := by
  induction bs with
  | nil => rfl
  | cons p rest ih =>
    rcases p with ⟨k, v⟩
    show List.lookup i
        ((if (k == i) = true then
            (k, { v with financeSynced := true, financeTransactionId := some txId,
                         financeSyncedAt := some t })
          else (k, v)) :: updateSynced rest i txId t) =
      (List.lookup i ((k, v) :: rest)).map (fun b =>
        { b with financeSynced := true, financeTransactionId := some txId,
                 financeSyncedAt := some t })
    by_cases hk : (k == i) = true
    · have hik : (i == k) = true := by
        rw [beq_iff_eq] at hk
        subst hk
        exact beq_self_eq_true k
      rw [if_pos hk]
      simp [List.lookup, hik]
    · have hik : (i == k) = false := by
        rw [beq_eq_false_iff_ne]
        rw [Bool.not_eq_true, beq_eq_false_iff_ne] at hk
        exact Ne.symm hk
      rw [if_neg hk]
      simp [List.lookup, hik]
      exact ih

theorem docId_ne_empty (n : Nat) : docId n ≠ "" := by
  intro h
  have h2 : (docId n).data = "".data := congrArg String.data h
  rw [docId, String.data_append] at h2
  simp at h2

theorem strTruthy_some_docId (n : Nat) : strTruthy (some (docId n)) = true := by
  simp [strTruthy, bne_iff_ne, docId_ne_empty n]

/-- C2: on a booking that is present and not yet flagged synced, one call of
sahr_finance_sync_booking appends exactly one service transaction plus one tip
transaction exactly when a positive tip amount is present; a second sequential
call (any parameters) detects the flag pair set by the first, writes nothing
(the whole state, bookings included, is returned unchanged) and yields the
recoverable alreadySynced outcome carrying the posted transaction id, distinct
from the errorNotFound outcome. -/
theorem claim_C2_sync_idempotent (cfg : FinConfig) (bookingId : String)
    (oa1 oa2 : Option Int) (pm1 pm2 n1 n2 : Option String)
    (s : FinState) (b : FinBooking)
    (hlook : s.bookings.lookup bookingId = some b)
    (_hstatus : b.status = "completed")
    (hunsynced : (b.financeSynced && strTruthy b.financeTransactionId) = false) :
    ((sahr_finance_sync_booking cfg bookingId oa1 pm1 n1 s).1.transactions.length =
        s.transactions.length +
          (match b.tipAmount with
           | some t => if 0 < t then 2 else 1
           | none => 1)) ∧
    (((sahr_finance_sync_booking cfg bookingId oa1 pm1 n1 s).1.transactions.drop
        s.transactions.length).map (fun t => t.category) =
      (SERVICE_CATEGORIES b.serviceType).getD "auto-detailing" ::
        (match b.tipAmount with
         | some t => if 0 < t then ["tips"] else []
         | none => [])) ∧
    (sahr_finance_sync_booking cfg bookingId oa2 pm2 n2
        (sahr_finance_sync_booking cfg bookingId oa1 pm1 n1 s).1 =
      ((sahr_finance_sync_booking cfg bookingId oa1 pm1 n1 s).1,
        SyncOutcome.alreadySynced (docId (s.fresh + 1)))) := by
  rcases htip : b.tipAmount with _ | tip
  · simp only [sahr_finance_sync_booking, hlook, hunsynced, Bool.false_eq_true, if_false,
      htip]
    refine ⟨by simp, by rw [List.drop_left]; rfl, ?_⟩
    simp only [lookup_updateSynced, hlook, Option.map_some]
    simp [strTruthy_some_docId]
  · by_cases h0 : 0 < tip
    · simp only [sahr_finance_sync_booking, hlook, hunsynced, Bool.false_eq_true, if_false,
        htip, h0, if_true]
      refine ⟨by simp, ?_, ?_⟩
      · rw [List.append_assoc, List.drop_left]
        rfl
      · simp only [lookup_updateSynced, hlook, Option.map_some]
        simp [strTruthy_some_docId]
    · simp only [sahr_finance_sync_booking, hlook, hunsynced, Bool.false_eq_true, if_false,
        htip, h0, if_false]
      refine ⟨by simp, by rw [List.drop_left]; rfl, ?_⟩
      simp only [lookup_updateSynced, hlook, Option.map_some]
      simp [strTruthy_some_docId]

/-- C2 witness: concrete run on the example state (completed booking with a
20-dollar tip): the pair is posted once and the second call is a no-op with
the already-synced outcome. -/
theorem claim_C2_witness :
    ((sahr_finance_sync_booking {} "bk1" none none none exFinState).1.transactions.length =
        exFinState.transactions.length +
          (match exFinBooking.tipAmount with
           | some t => if 0 < t then 2 else 1
           | none => 1)) ∧
    (((sahr_finance_sync_booking {} "bk1" none none none exFinState).1.transactions.drop
        exFinState.transactions.length).map (fun t => t.category) =
      (SERVICE_CATEGORIES exFinBooking.serviceType).getD "auto-detailing" ::
        (match exFinBooking.tipAmount with
         | some t => if 0 < t then ["tips"] else []
         | none => [])) ∧
    (sahr_finance_sync_booking {} "bk1" none none none
        (sahr_finance_sync_booking {} "bk1" none none none exFinState).1 =
      ((sahr_finance_sync_booking {} "bk1" none none none exFinState).1,
        SyncOutcome.alreadySynced (docId (exFinState.fresh + 1)))) :=
  claim_C2_sync_idempotent {} "bk1" none none none none none none exFinState exFinBooking
    rfl rfl rfl

/-- C10: on a booking whose financeSynced flag is set but whose
financeTransactionId is absent, the single-booking sync (which requires both)
posts a new transaction and reports success, while the bulk sync (which checks
financeSynced alone) reports it as already synced and posts nothing. -/
theorem claim_C10_sync_flag_divergence (cfg : FinConfig) (bookingId : String)
    (oa : Option Int) (pm n dpm : Option String) (s : FinState) (b : FinBooking)
    (hlook : s.bookings.lookup bookingId = some b)
    (hsync : b.financeSynced = true) (htx : b.financeTransactionId = none) :
    ((sahr_finance_sync_booking cfg bookingId oa pm n s).1.transactions.length =
        s.transactions.length +
          (match b.tipAmount with
           | some t => if 0 < t then 2 else 1
           | none => 1)) ∧
    (∃ tx tip fb, (sahr_finance_sync_booking cfg bookingId oa pm n s).2 =
        SyncOutcome.synced tx tip fb) ∧
    (sahr_finance_bulk_sync cfg [bookingId] dpm s =
      (s, [{ bookingId := bookingId, success := false, transactionId := none,
             error := some "Already synced" }], 0, 0)) := by
  have hunsynced : (b.financeSynced && strTruthy b.financeTransactionId) = false := by
    rw [htx]
    simp [strTruthy]
  refine ⟨?_, ?_, ?_⟩
  · rcases htip : b.tipAmount with _ | tip
    · simp [sahr_finance_sync_booking, hlook, hunsynced, htip]
    · by_cases h0 : 0 < tip
      · simp [sahr_finance_sync_booking, hlook, hunsynced, htip, h0]
      · simp [sahr_finance_sync_booking, hlook, hunsynced, htip, h0]
  · rcases htip : b.tipAmount with _ | tip
    · simp only [sahr_finance_sync_booking, hlook, hunsynced, Bool.false_eq_true, if_false,
        htip]
      exact ⟨_, _, _, rfl⟩
    · by_cases h0 : 0 < tip
      · simp only [sahr_finance_sync_booking, hlook, hunsynced, Bool.false_eq_true, if_false,
          htip, h0, if_true]
        exact ⟨_, _, _, rfl⟩
      · simp only [sahr_finance_sync_booking, hlook, hunsynced, Bool.false_eq_true, if_false,
          htip, h0, if_false]
        exact ⟨_, _, _, rfl⟩
  · simp [sahr_finance_bulk_sync, bulkSyncStep, hlook, hsync]

/-- C10 witness: concrete run on the half-flagged example booking: the single
sync posts one transaction and succeeds, the bulk sync skips it. -/
theorem claim_C10_witness :
    ((sahr_finance_sync_booking {} "bk2" none none none exFinState10).1.transactions.length =
        exFinState10.transactions.length +
          (match exFinBooking10.tipAmount with
           | some t => if 0 < t then 2 else 1
           | none => 1)) ∧
    (∃ tx tip fb, (sahr_finance_sync_booking {} "bk2" none none none exFinState10).2 =
        SyncOutcome.synced tx tip fb) ∧
    (sahr_finance_bulk_sync {} ["bk2"] none exFinState10 =
      (exFinState10, [{ bookingId := "bk2", success := false, transactionId := none,
                        error := some "Already synced" }], 0, 0)) :=
  claim_C10_sync_flag_divergence {} "bk2" none none none none exFinState10 exFinBooking10
    rfl rfl rfl

end OpenClaw
